import Mathlib

/-!
Shallow embedding of the token-lifecycle subsystem of the
easy-generator-task authentication service, together with theorems
checking the natural-language specification against the code.

The embedding follows the TypeScript sources:
* environment validation        — src/unnamed/part_012 (validation.schema.ts)
* runtime configuration         — src/backend/src/config/configuration.ts
* user store                    — src/auth-api/src/users/users.service.ts
* auth service                  — src/auth-api/src/auth/auth.service.ts
* auth controller               — src/backend/src/auth/auth.controller.ts
* access-token strategy         — src/auth-api/src/auth/strategies/jwt.strategy.ts
* refresh-token strategy        — src/unnamed/part_011 (refresh-token.strategy.ts)
* users controller              — src/auth-api/src/users/users.controller.ts
-/

namespace AuthSpec

/-! ## JavaScript helpers -/

/-- Truthiness of an optional string as JavaScript sees it:
`undefined` and the empty string are falsy. -/
def jsFalsy : Option String → Bool
  | none => true
  | some s => s = ""

/-- JavaScript `value || dflt` applied to an optional string: the default is
taken when the value is `undefined` or the empty string.  This is the
semantics of the `@Transform(({ value }) => value || dflt)` decorators in
`validation.schema.ts` and of the `process.env.X || dflt` reads in
`configuration.ts`. -/
def defaulted (v : Option String) (dflt : String) : String :=
  match v with
  | none => dflt
  | some s => if s = "" then dflt else s

/-- Decimal value of a digit list (most significant first). -/
def natOfDigits (cs : List Char) : Nat :=
  cs.foldl (fun n c => n * 10 + (c.toNat - 48)) 0

/-- JavaScript `parseInt(s, 10)`: optional sign, then leading digits;
`none` models `NaN`. -/
def parseIntJS (s : String) : Option Int :=
  let t := s.trim
  let core : Int × List Char :=
    match t.data with
    | '-' :: cs => (-1, cs)
    | '+' :: cs => (1, cs)
    | cs => (1, cs)
  let digits := core.2.takeWhile Char.isDigit
  if digits.isEmpty then none
  else some (core.1 * (natOfDigits digits : Nat))

/-! ## Environment validation (validation.schema.ts) -/

/-- The `Environment` enum of `validation.schema.ts`. -/
inductive Environment where
  | development
  | production
  | test
  | staging
deriving Repr, DecidableEq

/-- Decode the `NODE_ENV` string into the `Environment` enum
(`IsEnum(Environment)`). -/
def Environment.ofString? (s : String) : Option Environment :=
  if s = "development" then some .development
  else if s = "production" then some .production
  else if s = "test" then some .test
  else if s = "staging" then some .staging
  else none

/-- The `LogLevel` enum of `validation.schema.ts`. -/
inductive LogLevel where
  | error
  | warn
  | info
  | debug
  | verbose
deriving Repr, DecidableEq

/-- Decode the `LOG_LEVEL` string into the `LogLevel` enum. -/
def LogLevel.ofString? (s : String) : Option LogLevel :=
  if s = "error" then some .error
  else if s = "warn" then some .warn
  else if s = "info" then some .info
  else if s = "debug" then some .debug
  else if s = "verbose" then some .verbose
  else none

/-- The raw process environment: each variable is either set (to a string)
or unset. -/
structure RawEnv where
  MONGODB_URI : Option String
  JWT_SECRET : Option String
  JWT_EXPIRES_IN : Option String
  JWT_REFRESH_SECRET : Option String
  JWT_REFRESH_EXPIRES_IN : Option String
  PORT : Option String
  NODE_ENV : Option String
  LOG_LEVEL : Option String
  CORS_ORIGIN : Option String
deriving Repr, DecidableEq

/-- The validated configuration produced by `validate` — the
`EnvironmentVariables` class of `validation.schema.ts` after
transformation and validation succeed. -/
structure EnvironmentVariables where
  MONGODB_URI : String
  JWT_SECRET : String
  JWT_EXPIRES_IN : String
  JWT_REFRESH_SECRET : String
  JWT_REFRESH_EXPIRES_IN : String
  PORT : Int
  NODE_ENV : Environment
  LOG_LEVEL : LogLevel
  CORS_ORIGIN : String
deriving Repr, DecidableEq

/-- The regex `^\d+[smhdwy]$` used by the `@Matches` decorators on
`JWT_EXPIRES_IN` and `JWT_REFRESH_EXPIRES_IN`: one or more digits
followed by a single unit character. -/
def isDurationString (s : String) : Bool :=
  match s.data.reverse with
  | [] => false
  | u :: ds => !ds.isEmpty && ds.all Char.isDigit && "smhdwy".data.contains u

/-- Validation of `MONGODB_URI`: `IsString` fails on an unset variable
(`skipMissingProperties: false`) and `IsNotEmpty` fails on the empty
string. -/
def checkMongoUri (v : Option String) : Except String String :=
  match v with
  | none => .error "MONGODB_URI must be a string"
  | some s => if s = "" then .error "MONGODB_URI should not be empty" else .ok s

/-- Validation of a signing secret: `IsString` fails on an unset variable
and `MinLength(32)` fails on a string shorter than 32 characters. -/
def checkSecret (name : String) (v : Option String) : Except String String :=
  match v with
  | none => .error (name ++ " must be a string")
  | some s =>
    if s.length < 32 then .error (name ++ " must be at least 32 characters long")
    else .ok s

/-- Validation of a lifetime string after its default has been applied:
the `@Matches(/^\d+[smhdwy]$/)` check. -/
def checkDuration (name : String) (s : String) : Except String String :=
  if isDurationString s then .ok s
  else .error (name ++ " must be a valid time string")

/-- The `PORT` transform `parseInt(String(value), 10) || 3000` (class
default 3000 when unset), followed by the `Min(1)` check. -/
def checkPort (v : Option String) : Except String Int :=
  let p : Int :=
    match v with
    | none => 3000
    | some s =>
      match parseIntJS s with
      | none => 3000
      | some 0 => 3000
      | some n => n
  if p < 1 then .error "PORT must not be less than 1" else .ok p

/-- The `NODE_ENV` transform (`value || 'development'`) followed by the
`IsEnum(Environment)` check. -/
def checkEnvironment (v : Option String) : Except String Environment :=
  match Environment.ofString? (defaulted v "development") with
  | some e => .ok e
  | none => .error "NODE_ENV must be a valid enum value"

/-- The `LOG_LEVEL` transform (`value || 'info'`) followed by the
`IsEnum(LogLevel)` check. -/
def checkLogLevel (v : Option String) : Except String LogLevel :=
  match LogLevel.ofString? (defaulted v "info") with
  | some l => .ok l
  | none => .error "LOG_LEVEL must be a valid enum value"

/-- The `validate` function of `validation.schema.ts`: converts the raw
environment into `EnvironmentVariables` and throws when any validator
fails.  (class-validator collects all failures before throwing; only the
pass/fail outcome and the passing value are observable to the booting
application, so the checks are sequenced here.)  Note that the function
checks each secret in isolation: no validator compares `JWT_SECRET` with
`JWT_REFRESH_SECRET`. -/
def validate (config : RawEnv) : Except String EnvironmentVariables := do
  let uri ← checkMongoUri config.MONGODB_URI
  let secret ← checkSecret "JWT_SECRET" config.JWT_SECRET
  let expiresIn ← checkDuration "JWT_EXPIRES_IN" (defaulted config.JWT_EXPIRES_IN "1h")
  let refreshSecret ← checkSecret "JWT_REFRESH_SECRET" config.JWT_REFRESH_SECRET
  let refreshExpiresIn ←
    checkDuration "JWT_REFRESH_EXPIRES_IN" (defaulted config.JWT_REFRESH_EXPIRES_IN "7d")
  let port ← checkPort config.PORT
  let env ← checkEnvironment config.NODE_ENV
  let level ← checkLogLevel config.LOG_LEVEL
  pure
    { MONGODB_URI := uri
      JWT_SECRET := secret
      JWT_EXPIRES_IN := expiresIn
      JWT_REFRESH_SECRET := refreshSecret
      JWT_REFRESH_EXPIRES_IN := refreshExpiresIn
      PORT := port
      NODE_ENV := env
      LOG_LEVEL := level
      CORS_ORIGIN := defaulted config.CORS_ORIGIN "*" }

/-! ## Runtime configuration (configuration.ts)

`configuration.ts` exposes `jwt.secret := process.env.JWT_SECRET`,
`jwt.expiresIn := process.env.JWT_EXPIRES_IN || '1h'`,
`jwt.refreshSecret := process.env.JWT_REFRESH_SECRET`,
`jwt.refreshExpiresIn := process.env.JWT_REFRESH_EXPIRES_IN || '7d'` and
`nodeEnv := process.env.NODE_ENV || 'development'`.  The application only
reaches these reads after `validate` has succeeded on the same raw
environment, so the runtime JWT configuration carries plain strings. -/

/-- The `jwt` section of `configuration.ts`, as read through
`ConfigService` by the auth service and the two passport strategies. -/
structure JwtRuntimeConfig where
  secret : String
  expiresIn : String
  refreshSecret : String
  refreshExpiresIn : String
deriving Repr, DecidableEq

/-- Projection of a validated environment onto the `jwt` section of
`configuration.ts` (the raw reads and the validated fields coincide once
`validate` succeeds). -/
def jwtRuntimeConfig (v : EnvironmentVariables) : JwtRuntimeConfig :=
  { secret := v.JWT_SECRET
    expiresIn := v.JWT_EXPIRES_IN
    refreshSecret := v.JWT_REFRESH_SECRET
    refreshExpiresIn := v.JWT_REFRESH_EXPIRES_IN }

/-! ## Tokens (symbolic JWT model)

A signed token is modelled symbolically: the signature of an HMAC-signed
JWT is determined by the signing secret and the payload bytes, so it is
represented as the pair of both; verification recomputes that pair over
the received payload with the verifying keyspace's secret.  A tampered or
structurally malformed token string is represented by the `malformed`
constructor.  Times are Unix seconds, as in the `iat`/`exp` claims. -/

/-- The claims payload supplied by the caller to `jwtService.sign`:
`{ email: user.email, sub: userId }`. -/
structure JwtPayload where
  sub : String
  email : String
deriving Repr, DecidableEq

/-- A full claims set as it appears inside a signed token: the caller
payload plus `iat`/`exp`, which the codec computes itself. -/
structure TokenClaims where
  sub : String
  email : String
  iat : Nat
  exp : Nat
deriving Repr, DecidableEq

/-- A well-formed signed token: decoded claims plus the symbolic HMAC
signature (signing secret paired with the payload it was computed over). -/
structure SignedToken where
  claims : TokenClaims
  sig : String × TokenClaims
deriving Repr, DecidableEq

/-- A token string: either structurally well formed and signed, or
malformed (any other string). -/
inductive Token where
  | malformed (raw : String)
  | signed (t : SignedToken)
deriving Repr, DecidableEq

/-- JavaScript falsiness of a cookie-extracted token value: only the empty
string is falsy among present values. -/
def Token.isFalsy : Token → Bool
  | .malformed raw => raw = ""
  | .signed _ => false

/-- Duration strings accepted by the configuration (`1h`, `7d`, ...),
converted to seconds with the unit table of the `ms` package used by
`jsonwebtoken` (`y` = 365.25 days). -/
def durationSeconds (s : String) : Nat :=
  match s.data.reverse with
  | [] => 0
  | u :: ds =>
    let n := natOfDigits ds.reverse
    let unit : Nat :=
      if u = 's' then 1
      else if u = 'm' then 60
      else if u = 'h' then 3600
      else if u = 'd' then 86400
      else if u = 'w' then 604800
      else if u = 'y' then 31557600
      else 0
    n * unit

/-- `jwtService.sign(payload, { secret, expiresIn })`: the codec stamps
`iat := now` and `exp := now + expiresIn` itself and signs the resulting
claims with the keyspace secret. -/
def signToken (secret : String) (expiresInSeconds : Nat) (now : Nat)
    (payload : JwtPayload) : Token :=
  let c : TokenClaims :=
    { sub := payload.sub, email := payload.email, iat := now, exp := now + expiresInSeconds }
  .signed { claims := c, sig := (secret, c) }

/-- Parse failures of `jsonwebtoken.verify` as surfaced through
passport-jwt. -/
inductive ParseError where
  | malformedToken
  | badSignature
  | expired
deriving Repr, DecidableEq

/-- `jsonwebtoken.verify(token, secret)` as configured by passport-jwt:
fails on a malformed string, on a signature that does not verify against
`secret` over the received payload, and — unless `ignoreExpiration` is
set — on `now ≥ exp`. -/
def parseToken (tok : Token) (secret : String) (ignoreExpiration : Bool)
    (now : Nat) : Except ParseError TokenClaims :=
  match tok with
  | .malformed _ => .error .malformedToken
  | .signed t =>
    if t.sig = (secret, t.claims) then
      if !ignoreExpiration && t.claims.exp ≤ now then .error .expired
      else .ok t.claims
    else .error .badSignature

/-! ## HTTP errors -/

/-- The error shapes thrown across the subsystem boundary.  An
`UnauthorizedException()` with no argument carries NestJS's default
message `"Unauthorized"`; the logout handler's
`HttpException('No refresh token found', 401)` is an unauthorized
response as well. -/
inductive HttpError where
  | unauthorized (message : String)
  | conflict (message : String)
  | notFound (message : String)
deriving Repr, DecidableEq

/-! ## User store (users.service.ts) -/

/-- A persisted user document (`user.schema.ts`): the `password` field
holds the bcrypt hash.  The source field for the identifier is `_id`. -/
structure UserDocument where
  id : String
  email : String
  name : String
  password : String
  createdAt : Nat
  updatedAt : Nat
deriving Repr, DecidableEq

/-- The outward user shape (`user.entity.ts`): `_id`, `email`, `name`,
`createdAt`, `updatedAt` — and no password field. -/
structure UserEntity where
  id : String
  email : String
  name : String
  createdAt : Nat
  updatedAt : Nat
deriving Repr, DecidableEq

/-- JavaScript `String.prototype.toLowerCase()` (character-wise ASCII
lowercasing, which is what the email strings of this service exercise). -/
def jsToLower (s : String) : String := String.mk (s.data.map Char.toLower)

/-- `UsersService.findByEmail`: a `findOne` on the lowercased email. -/
def usersFindByEmail (db : List UserDocument) (email : String) :
    Option UserDocument :=
  db.find? (fun u => u.email = jsToLower email)

/-- `UsersService.findById`: throws `NotFoundException('User not found')`
when the id does not resolve — it never returns a null user. -/
def usersFindById (db : List UserDocument) (id : String) :
    Except HttpError UserDocument :=
  match db.find? (fun u => u.id = id) with
  | some u => .ok u
  | none => .error (.notFound "User not found")

/-- `UsersService.validatePassword`: `bcrypt.compare(password,
user.password)`.  The hash comparison itself lives in the bcrypt library,
so it is passed in abstractly. -/
def validatePassword (compare : String → String → Bool) (user : UserDocument)
    (password : String) : Bool :=
  compare password user.password

/-- `UsersService.toUserEntity`: the projection of a stored document onto
the outward entity — exactly the five public fields. -/
def toUserEntity (u : UserDocument) : UserEntity :=
  { id := u.id, email := u.email, name := u.name
    createdAt := u.createdAt, updatedAt := u.updatedAt }

/-- JSON serialization of the outward user entity: the list of emitted
fields, in declaration order.  (`_id` is the wire name of the identifier
field.) -/
def serializeUserEntity (e : UserEntity) : List (String × String) :=
  [("_id", e.id), ("email", e.email), ("name", e.name),
   ("createdAt", toString e.createdAt), ("updatedAt", toString e.updatedAt)]

/-- The sign-up request body (`signup.dto.ts`). -/
structure SignUpDto where
  email : String
  name : String
  password : String
deriving Repr, DecidableEq

/-- `UsersService.create`: hashes the password with bcrypt and saves a new
document.  The generated ObjectId and the timestamps come from the
database layer and are passed in explicitly. -/
def usersCreate (db : List UserDocument) (hash : String → String)
    (newId : String) (now : Nat) (dto : SignUpDto) :
    UserDocument × List UserDocument :=
  let u : UserDocument :=
    { id := newId, email := dto.email, name := dto.name
      password := hash dto.password, createdAt := now, updatedAt := now }
  (u, db ++ [u])

/-- The profile-update request body (`update-user.dto.ts`): only an
optional `name`. -/
structure UpdateUserDto where
  name : Option String
deriving Repr, DecidableEq

/-- `UsersService.update`: `findByIdAndUpdate(id, dto, { new: true })`,
throwing `NotFoundException('User not found')` when the id does not
resolve; mongoose timestamps refresh `updatedAt`. -/
def usersUpdate (db : List UserDocument) (id : String) (dto : UpdateUserDto)
    (now : Nat) : Except HttpError (UserDocument × List UserDocument) :=
  match db.find? (fun u => u.id = id) with
  | none => .error (.notFound "User not found")
  | some u =>
    let u2 := { u with name := dto.name.getD u.name, updatedAt := now }
    .ok (u2, db.map (fun w => if w.id = id then u2 else w))

/-- `UsersService.getProfile`: `findById` then `toUserEntity`. -/
def usersGetProfile (db : List UserDocument) (userId : String) :
    Except HttpError UserEntity :=
  (usersFindById db userId).map toUserEntity

/-- `UsersService.updateProfile`: `update` then `toUserEntity`. -/
def usersUpdateProfile (db : List UserDocument) (userId : String)
    (dto : UpdateUserDto) (now : Nat) :
    Except HttpError (UserEntity × List UserDocument) :=
  (usersUpdate db userId dto now).map (fun r => (toUserEntity r.1, r.2))

/-! ## Auth service (auth.service.ts) -/

/-- The body of a successful authentication response
(`auth-response.dto.ts`): the outward user plus the access token. -/
structure AuthResponseDto where
  user : UserEntity
  access_token : Token
deriving Repr, DecidableEq

/-- `AuthService.generateAuthResponse`: builds the payload
`{ email: user.email, sub: userId }` once, signs it in the access
keyspace (`jwtService.sign(payload)`, whose module registration carries
`jwt.secret` / `jwt.expiresIn`) and in the refresh keyspace
(`jwtService.sign(payload, { secret: jwt.refreshSecret, expiresIn:
jwt.refreshExpiresIn })`), and returns the response body together with
the refresh token. -/
def generateAuthResponse (cfg : JwtRuntimeConfig) (now : Nat)
    (user : UserDocument) : AuthResponseDto × Token :=
  let payload : JwtPayload := { sub := user.id, email := user.email }
  let accessToken := signToken cfg.secret (durationSeconds cfg.expiresIn) now payload
  let refreshToken :=
    signToken cfg.refreshSecret (durationSeconds cfg.refreshExpiresIn) now payload
  ({ user := toUserEntity user, access_token := accessToken }, refreshToken)

/-- `AuthService.validateUser`: look the user up by email; return it only
when the bcrypt comparison succeeds, and `null` otherwise — the same
`null` for an unknown email and for a failing password. -/
def validateUser (compare : String → String → Bool) (db : List UserDocument)
    (email password : String) : Option UserDocument :=
  match usersFindByEmail db email with
  | some user => if validatePassword compare user password then some user else none
  | none => none

/-- `AuthService.signUp`: `Conflict` when `findByEmail` already resolves,
otherwise create the user and generate the auth response. -/
def authSignUp (cfg : JwtRuntimeConfig) (db : List UserDocument)
    (hash : String → String) (newId : String) (now : Nat) (dto : SignUpDto) :
    Except HttpError ((AuthResponseDto × Token) × List UserDocument) :=
  match usersFindByEmail db dto.email with
  | some _ => .error (.conflict "User with this email already exists")
  | none =>
    let created := usersCreate db hash newId now dto
    .ok (generateAuthResponse cfg now created.1, created.2)

/-- `AuthService.signIn`: called after the local strategy has validated
credentials; just generates the auth response. -/
def authSignIn (cfg : JwtRuntimeConfig) (now : Nat) (user : UserDocument) :
    AuthResponseDto × Token :=
  generateAuthResponse cfg now user

/-- `AuthService.refreshTokens`: inside a `try`, re-resolve the subject
with `findById` (which throws `NotFoundException` when absent — the
`if (!user)` guard in the source is unreachable because `findById` never
returns null) and generate a fresh response; the `catch` converts every
failure into `UnauthorizedException('Invalid refresh token')`. -/
def refreshTokens (cfg : JwtRuntimeConfig) (db : List UserDocument) (now : Nat)
    (userId : String) : Except HttpError (AuthResponseDto × Token) :=
  match usersFindById db userId with
  | .ok user => .ok (generateAuthResponse cfg now user)
  | .error _ => .error (.unauthorized "Invalid refresh token")

/-! ## Passport strategies -/

/-- The options object passed to the passport-jwt `Strategy` constructor
by both strategies. -/
structure StrategyOptions where
  ignoreExpiration : Bool
  secretOrKey : String
deriving Repr, DecidableEq

/-- The `super({...})` options of `JwtStrategy` (jwt.strategy.ts): bearer
header extraction, `ignoreExpiration: false`, `secretOrKey :=
jwt.secret`. -/
def jwtStrategyOptions (cfg : JwtRuntimeConfig) : StrategyOptions :=
  { ignoreExpiration := false, secretOrKey := cfg.secret }

/-- The `super({...})` options of `RefreshTokenStrategy`
(refresh-token.strategy.ts): cookie extraction, `ignoreExpiration:
false`, `secretOrKey := jwt.refreshSecret`. -/
def refreshTokenStrategyOptions (cfg : JwtRuntimeConfig) : StrategyOptions :=
  { ignoreExpiration := false, secretOrKey := cfg.refreshSecret }

/-- The request user attached by `JwtStrategy.validate`. -/
structure AccessUser where
  userId : String
  email : String
deriving Repr, DecidableEq

/-- `JwtStrategy.validate`: inside a `try`, re-resolve the subject with
`findById` (throws when absent); the `catch` converts the failure into a
bare `UnauthorizedException()` (default message `"Unauthorized"`). -/
def jwtStrategyValidate (db : List UserDocument) (payload : JwtPayload) :
    Except HttpError AccessUser :=
  match usersFindById db payload.sub with
  | .ok _ => .ok { userId := payload.sub, email := payload.email }
  | .error _ => .error (.unauthorized "Unauthorized")

/-- The request user attached by `RefreshTokenStrategy.validate`: the
claims plus the raw refresh token read back from the cookie. -/
structure RefreshUser where
  userId : String
  email : String
  refreshToken : Token
deriving Repr, DecidableEq

/-- `RefreshTokenStrategy.validate(req, payload)`: fail
`Unauthorized('Refresh token not found')` when the cookie value is falsy;
then, inside a `try`, re-resolve the subject with `findById` (throws when
absent — the `if (!user)` guard with its `'User not found'` message is
unreachable because `findById` never returns null); the `catch` converts
every failure into `UnauthorizedException('Invalid refresh token')`. -/
def refreshTokenStrategyValidate (db : List UserDocument)
    (cookie : Option Token) (payload : JwtPayload) :
    Except HttpError RefreshUser :=
  match cookie with
  | none => .error (.unauthorized "Refresh token not found")
  | some tok =>
    if tok.isFalsy then .error (.unauthorized "Refresh token not found")
    else
      match usersFindById db payload.sub with
      | .ok _ =>
        .ok { userId := payload.sub, email := payload.email, refreshToken := tok }
      | .error _ => .error (.unauthorized "Invalid refresh token")

/-- The access-token guard pipeline (`JwtAuthGuard` + passport-jwt +
`JwtStrategy`): extract the bearer token, verify it with the strategy
options, then run `JwtStrategy.validate` on the decoded payload.  A
missing token or a failed verification surfaces as NestJS's default
`UnauthorizedException()`. -/
def accessGuard (cfg : JwtRuntimeConfig) (db : List UserDocument) (now : Nat)
    (bearer : Option Token) : Except HttpError AccessUser :=
  let opts := jwtStrategyOptions cfg
  match bearer with
  | none => .error (.unauthorized "Unauthorized")
  | some tok =>
    match parseToken tok opts.secretOrKey opts.ignoreExpiration now with
    | .error _ => .error (.unauthorized "Unauthorized")
    | .ok claims => jwtStrategyValidate db { sub := claims.sub, email := claims.email }

/-- The refresh-token guard pipeline (`RefreshTokenAuthGuard` +
passport-jwt + `RefreshTokenStrategy`): extract
`req.cookies.refresh_token`, verify it with the strategy options, then
run `RefreshTokenStrategy.validate`.  A missing or falsy cookie value, or
a failed verification, surfaces as NestJS's default
`UnauthorizedException()`. -/
def refreshGuard (cfg : JwtRuntimeConfig) (db : List UserDocument) (now : Nat)
    (cookie : Option Token) : Except HttpError RefreshUser :=
  let opts := refreshTokenStrategyOptions cfg
  match cookie with
  | none => .error (.unauthorized "Unauthorized")
  | some tok =>
    if tok.isFalsy then .error (.unauthorized "Unauthorized")
    else
      match parseToken tok opts.secretOrKey opts.ignoreExpiration now with
      | .error _ => .error (.unauthorized "Unauthorized")
      | .ok claims =>
        refreshTokenStrategyValidate db (some tok)
          { sub := claims.sub, email := claims.email }

/-- Modelled from the spec: the `LocalStrategy` source file is not under
src (only its unit test and its guard are).  Per §4.8 of the spec it
delegates to `AuthService.validateUser` and throws Unauthorized on a
null result; the exact message string
`UnauthorizedException('Invalid email or password')` is the one its
in-repo unit test asserts. -/
def localStrategyValidate (compare : String → String → Bool)
    (db : List UserDocument) (email password : String) :
    Except HttpError UserDocument :=
  match validateUser compare db email password with
  | some user => .ok user
  | none => .error (.unauthorized "Invalid email or password")

/-! ## Cookies and the auth controller (auth.controller.ts) -/

/-- The options object of an Express `res.cookie` / `res.clearCookie`
call.  `maxAge` is in milliseconds; `clearCookie` passes none. -/
structure CookieOptions where
  httpOnly : Bool
  secure : Bool
  sameSite : String
  maxAge : Option Nat
  path : String
deriving Repr, DecidableEq

/-- The cookie options literal that appears identically in the sign-up,
sign-in and refresh handlers of `src/backend/src/auth/auth.controller.ts`:
`httpOnly: nodeEnv === 'production'`, `secure: nodeEnv === 'production'`,
`sameSite: nodeEnv === 'production' ? 'strict' : 'lax'`,
`maxAge: 7 * 24 * 60 * 60 * 1000`, `path: '/'`. -/
def refreshCookieOptions (nodeEnv : String) : CookieOptions :=
  { httpOnly := nodeEnv = "production"
    secure := nodeEnv = "production"
    sameSite := if nodeEnv = "production" then "strict" else "lax"
    maxAge := some (7 * 24 * 60 * 60 * 1000)
    path := "/" }

/-- The options of the `res.clearCookie('refresh_token', {...})` call in
the logout handler: same environment-dependent attributes, without
`maxAge`. -/
def clearCookieOptions (nodeEnv : String) : CookieOptions :=
  { httpOnly := nodeEnv = "production"
    secure := nodeEnv = "production"
    sameSite := if nodeEnv = "production" then "strict" else "lax"
    maxAge := none
    path := "/" }

/-- The cookie side effect a handler performs on the response. -/
inductive CookieEffect where
  | set (name : String) (value : Token) (opts : CookieOptions)
  | clear (name : String) (opts : CookieOptions)
deriving Repr, DecidableEq

/-- `AuthController.signUp`: run `AuthService.signUp`, then attach the
refresh token as the `refresh_token` cookie. -/
def signUpEndpoint (cfg : JwtRuntimeConfig) (nodeEnv : String)
    (db : List UserDocument) (hash : String → String) (newId : String)
    (now : Nat) (dto : SignUpDto) :
    Except HttpError ((AuthResponseDto × CookieEffect) × List UserDocument) :=
  match authSignUp cfg db hash newId now dto with
  | .error e => .error e
  | .ok (result, db2) =>
    .ok ((result.1, .set "refresh_token" result.2 (refreshCookieOptions nodeEnv)), db2)

/-- `AuthController.signIn`: the `LocalAuthGuard` runs the local strategy
on the request body; on success the handler calls `AuthService.signIn`
and attaches the refresh token as the `refresh_token` cookie. -/
def signInEndpoint (cfg : JwtRuntimeConfig) (nodeEnv : String)
    (compare : String → String → Bool) (db : List UserDocument) (now : Nat)
    (email password : String) :
    Except HttpError (AuthResponseDto × CookieEffect) :=
  match localStrategyValidate compare db email password with
  | .error e => .error e
  | .ok user =>
    let result := authSignIn cfg now user
    .ok (result.1, .set "refresh_token" result.2 (refreshCookieOptions nodeEnv))

/-- `AuthController.refresh`: the `RefreshTokenAuthGuard` runs the
refresh pipeline on the `refresh_token` cookie; on success the handler
calls `AuthService.refreshTokens(userId, email)` and attaches the new
refresh token as the `refresh_token` cookie. -/
def refreshEndpoint (cfg : JwtRuntimeConfig) (nodeEnv : String)
    (db : List UserDocument) (now : Nat) (cookie : Option Token) :
    Except HttpError (AuthResponseDto × CookieEffect) :=
  match refreshGuard cfg db now cookie with
  | .error e => .error e
  | .ok ru =>
    match refreshTokens cfg db now ru.userId with
    | .error e => .error e
    | .ok result =>
      .ok (result.1, .set "refresh_token" result.2 (refreshCookieOptions nodeEnv))

/-- `AuthController.logout`: throw `HttpException('No refresh token
found', 401)` when `req.cookies?.refresh_token` is falsy (absent or the
empty string); otherwise clear the cookie and return the success
message.  The cookie value is never parsed. -/
def logoutEndpoint (nodeEnv : String) (cookie : Option String) :
    Except HttpError (String × CookieEffect) :=
  if jsFalsy cookie then .error (.unauthorized "No refresh token found")
  else .ok ("Logged out successfully", .clear "refresh_token" (clearCookieOptions nodeEnv))

/-! ## Users controller (users.controller.ts) -/

/-- `UsersController.getProfile` behind `JwtAuthGuard`: run the access
guard on the bearer token, then `UsersService.getProfile` on the
attached user id. -/
def getProfileEndpoint (cfg : JwtRuntimeConfig) (db : List UserDocument)
    (now : Nat) (bearer : Option Token) : Except HttpError UserEntity :=
  match accessGuard cfg db now bearer with
  | .error e => .error e
  | .ok au => usersGetProfile db au.userId

/-- `UsersController.updateProfile` behind `JwtAuthGuard`: run the access
guard on the bearer token, then `UsersService.updateProfile` on the
attached user id. -/
def updateProfileEndpoint (cfg : JwtRuntimeConfig) (db : List UserDocument)
    (now : Nat) (bearer : Option Token) (dto : UpdateUserDto) :
    Except HttpError (UserEntity × List UserDocument) :=
  match accessGuard cfg db now bearer with
  | .error e => .error e
  | .ok au => usersUpdateProfile db au.userId dto now

/-! ## Concrete fixtures -/

/-- A 32-character signing secret. -/
def secret32 : String := "0123456789abcdef0123456789abcdef"

/-- A second, distinct 32-character signing secret. -/
def secretB32 : String := "fedcba9876543210fedcba9876543210"

/-- A raw environment in which both signing secrets are set to the same
32-character string and every optional variable is left unset. -/
def rawEqual : RawEnv :=
  { MONGODB_URI := some "mongodb://localhost:27017/app"
    JWT_SECRET := some secret32
    JWT_EXPIRES_IN := none
    JWT_REFRESH_SECRET := some secret32
    JWT_REFRESH_EXPIRES_IN := none
    PORT := none
    NODE_ENV := none
    LOG_LEVEL := none
    CORS_ORIGIN := none }

/-- The validated configuration `validate` produces from `rawEqual`. -/
def vEqual : EnvironmentVariables :=
  { MONGODB_URI := "mongodb://localhost:27017/app"
    JWT_SECRET := secret32
    JWT_EXPIRES_IN := "1h"
    JWT_REFRESH_SECRET := secret32
    JWT_REFRESH_EXPIRES_IN := "7d"
    PORT := 3000
    NODE_ENV := .development
    LOG_LEVEL := .info
    CORS_ORIGIN := "*" }

/-- A raw environment with two distinct 32-character signing secrets. -/
def rawDistinct : RawEnv :=
  { MONGODB_URI := some "mongodb://localhost:27017/app"
    JWT_SECRET := some secret32
    JWT_EXPIRES_IN := none
    JWT_REFRESH_SECRET := some secretB32
    JWT_REFRESH_EXPIRES_IN := none
    PORT := none
    NODE_ENV := none
    LOG_LEVEL := none
    CORS_ORIGIN := none }

/-- The validated configuration `validate` produces from `rawDistinct`. -/
def vDistinct : EnvironmentVariables :=
  { MONGODB_URI := "mongodb://localhost:27017/app"
    JWT_SECRET := secret32
    JWT_EXPIRES_IN := "1h"
    JWT_REFRESH_SECRET := secretB32
    JWT_REFRESH_EXPIRES_IN := "7d"
    PORT := 3000
    NODE_ENV := .development
    LOG_LEVEL := .info
    CORS_ORIGIN := "*" }

/-- A runtime JWT configuration with two distinct secrets. -/
def cfgDistinct : JwtRuntimeConfig :=
  { secret := secret32, expiresIn := "1h"
    refreshSecret := secretB32, refreshExpiresIn := "7d" }

/-- A stored user document. -/
def user0 : UserDocument :=
  { id := "u1", email := "ann@b.com", name := "Ann Lee"
    password := "h$Secur3pass", createdAt := 0, updatedAt := 0 }

/-- A one-user store. -/
def db0 : List UserDocument := [user0]

/-- A concrete stand-in for `bcrypt.hash` with a fixed salt. -/
def hash0 : String → String := fun plain => "h$" ++ plain

/-- The `bcrypt.compare` matching `hash0`. -/
def compare0 : String → String → Bool := fun plain hashed => hashed = "h$" ++ plain

/-- The token payload for `user0`. -/
def payload0 : JwtPayload := { sub := "u1", email := "ann@b.com" }

/-- Claims of an access token for `user0` issued at time 0. -/
def accessClaims0 : TokenClaims :=
  { sub := "u1", email := "ann@b.com", iat := 0, exp := 3600 }

/-- An access token for `user0` signed with `cfgDistinct.secret`. -/
def stok0 : SignedToken := { claims := accessClaims0, sig := (cfgDistinct.secret, accessClaims0) }

/-- Claims of a refresh token for `user0` issued at time 0. -/
def refreshClaims0 : TokenClaims :=
  { sub := "u1", email := "ann@b.com", iat := 0, exp := 604800 }

/-- A refresh token for `user0` signed with `cfgDistinct.refreshSecret`. -/
def rtok0 : SignedToken :=
  { claims := refreshClaims0, sig := (cfgDistinct.refreshSecret, refreshClaims0) }

/-- The value a successful sign-in of `user0` at time 0 in the
development environment produces. -/
def signInResult0 : AuthResponseDto × CookieEffect :=
  ({ user := toUserEntity user0
     access_token := signToken cfgDistinct.secret 3600 0 payload0 },
   .set "refresh_token" (signToken cfgDistinct.refreshSecret 604800 0 payload0)
     (refreshCookieOptions "development"))

/-! ## Helper lemmas -/

/-- Inversion of a successful `Except` bind. -/
theorem except_bind_ok {α β : Type} {x : Except String α} {f : α → Except String β}
    {b : β} (h : x >>= f = .ok b) : ∃ a, x = .ok a ∧ f a = .ok b := by
  cases x with
  | error e => simp [Bind.bind, Except.bind] at h
  | ok a => exact ⟨a, rfl, by simpa [Bind.bind, Except.bind] using h⟩

/-- Inversion of a successful secret check: the variable was set and at
least 32 characters long. -/
theorem checkSecret_ok {name : String} {v : Option String} {s : String}
    (h : checkSecret name v = .ok s) : v = some s ∧ 32 ≤ s.length := by
  cases v with
  | none => simp [checkSecret] at h
  | some t =>
    simp only [checkSecret] at h
    by_cases hl : t.length < 32
    · simp [hl] at h
    · simp [hl] at h
      subst h
      exact ⟨rfl, by omega⟩

/-- Inversion of a successful `validate`: both secret checks passed and
their results are the validated fields. -/
theorem validate_ok_secrets {c : RawEnv} {v : EnvironmentVariables}
    (h : validate c = .ok v) :
    checkSecret "JWT_SECRET" c.JWT_SECRET = .ok v.JWT_SECRET ∧
    checkSecret "JWT_REFRESH_SECRET" c.JWT_REFRESH_SECRET = .ok v.JWT_REFRESH_SECRET := by
  unfold validate at h
  obtain ⟨uri, h1, h⟩ := except_bind_ok h
  obtain ⟨secret, h2, h⟩ := except_bind_ok h
  obtain ⟨ei, h3, h⟩ := except_bind_ok h
  obtain ⟨rsecret, h4, h⟩ := except_bind_ok h
  obtain ⟨rei, h5, h⟩ := except_bind_ok h
  obtain ⟨port, h6, h⟩ := except_bind_ok h
  obtain ⟨env, h7, h⟩ := except_bind_ok h
  obtain ⟨level, h8, h⟩ := except_bind_ok h
  have hv : v =
      { MONGODB_URI := uri, JWT_SECRET := secret, JWT_EXPIRES_IN := ei
        JWT_REFRESH_SECRET := rsecret, JWT_REFRESH_EXPIRES_IN := rei
        PORT := port, NODE_ENV := env, LOG_LEVEL := level
        CORS_ORIGIN := defaulted c.CORS_ORIGIN "*" } := by
    simpa [Pure.pure, Except.pure] using h.symm
  subst hv
  exact ⟨h2, h4⟩

/-- Evaluation of a concrete successful sign-in. -/
theorem signInRun0 :
    signInEndpoint cfgDistinct "development" compare0 db0 0 "ann@b.com"
      "Secur3pass" = .ok signInResult0 := rfl

/-- Evaluation of a concrete authenticated profile read. -/
theorem getProfileRun0 :
    getProfileEndpoint cfgDistinct db0 5 (some (.signed stok0)) =
      .ok (toUserEntity user0) := by
  simp [getProfileEndpoint, accessGuard, jwtStrategyOptions, parseToken, stok0,
    accessClaims0, cfgDistinct, jwtStrategyValidate, usersFindById, usersGetProfile,
    db0, user0, Except.map, toUserEntity]

/-! ## Claim C1 -/

/-- C1 (amended): startup validation rejects any configuration in which
the access-signing secret or the refresh-signing secret is unset or
shorter than 32 characters — equivalently, every configuration that
passes carries both secrets with at least 32 characters.  The validator
performs no comparison between the two secrets, so a passing
configuration may have equal signing keys (see the counterexample). -/
theorem c1 (c : RawEnv) (v : EnvironmentVariables) (h : validate c = .ok v) :
    (∃ s, c.JWT_SECRET = some s ∧ 32 ≤ s.length ∧ v.JWT_SECRET = s) ∧
    (∃ s, c.JWT_REFRESH_SECRET = some s ∧ 32 ≤ s.length ∧ v.JWT_REFRESH_SECRET = s) := by
  obtain ⟨h1, h2⟩ := validate_ok_secrets h
  obtain ⟨ha, hla⟩ := checkSecret_ok h1
  obtain ⟨hb, hlb⟩ := checkSecret_ok h2
  exact ⟨⟨v.JWT_SECRET, ha, hla, rfl⟩, ⟨v.JWT_REFRESH_SECRET, hb, hlb, rfl⟩⟩

/-- C1 witness: the theorem applied to a concrete passing configuration. -/
theorem c1_witness :
    (∃ s, rawEqual.JWT_SECRET = some s ∧ 32 ≤ s.length ∧ vEqual.JWT_SECRET = s) ∧
    (∃ s, rawEqual.JWT_REFRESH_SECRET = some s ∧ 32 ≤ s.length ∧
      vEqual.JWT_REFRESH_SECRET = s) :=
  c1 rawEqual vEqual rfl

/-- C1 counterexample: a configuration in which both signing secrets are
the same 32-character string passes startup validation, so the claim
that every passing configuration has distinct keys is false. -/
theorem c1_counterexample :
    validate rawEqual = .ok vEqual ∧ vEqual.JWT_SECRET = vEqual.JWT_REFRESH_SECRET :=
  ⟨rfl, rfl⟩

/-! ## Claim C2 -/

/-- C2 (amended): for every refresh call whose refresh token parses
successfully (valid signature, not expired) but whose subject no longer
resolves to a live user, the rotation fails with Unauthorized carrying
the message "Invalid refresh token" — the internal 'User not found'
throw sits inside a try whose catch replaces every failure with
'Invalid refresh token' — and no new token pair is issued. -/
theorem c2 (cfg : JwtRuntimeConfig) (nodeEnv : String) (db : List UserDocument)
    (now : Nat) (t : SignedToken)
    (hparse : parseToken (.signed t) (refreshTokenStrategyOptions cfg).secretOrKey
      (refreshTokenStrategyOptions cfg).ignoreExpiration now = .ok t.claims)
    (hnone : db.find? (fun u => u.id = t.claims.sub) = none) :
    refreshEndpoint cfg nodeEnv db now (some (.signed t)) =
      .error (.unauthorized "Invalid refresh token") := by
  simp [refreshEndpoint, refreshGuard, Token.isFalsy, hparse,
    refreshTokenStrategyValidate, usersFindById, hnone]

/-- C2 witness: the amended theorem applied to a concrete refresh call —
a well-signed, unexpired refresh token whose subject is missing from the
store. -/
theorem c2_witness :
    refreshEndpoint cfgDistinct "development" [] 10 (some (.signed rtok0)) =
      .error (.unauthorized "Invalid refresh token") :=
  c2 cfgDistinct "development" [] 10 rtok0 rfl rfl

/-- C2 counterexample: on a concrete refresh call whose token parses
successfully but whose subject is gone, the failure message is
"Invalid refresh token", not "user not found" (in any capitalisation) —
so the claim's message is false. -/
theorem c2_counterexample :
    parseToken (.signed rtok0) (refreshTokenStrategyOptions cfgDistinct).secretOrKey
        (refreshTokenStrategyOptions cfgDistinct).ignoreExpiration 10 = .ok rtok0.claims ∧
    refreshEndpoint cfgDistinct "development" [] 10 (some (.signed rtok0)) =
      .error (.unauthorized "Invalid refresh token") ∧
    ("Invalid refresh token" ≠ "user not found" ∧ "Invalid refresh token" ≠ "User not found") :=
  ⟨rfl, rfl, by decide, by decide⟩

/-! ## Claim C3 -/

/-- C3: for every successful sign-up, sign-in, and refresh, the refresh
token is written as the `refresh_token` cookie with Path=/ and a max-age
equal to 7 days, and attributes selected purely by environment: in
production `httpOnly = true`, `secure = true`, `sameSite = strict`; in
non-production `httpOnly = false`, `secure = false`, `sameSite = lax`. -/
theorem c3 :
    (∀ nodeEnv,
      (refreshCookieOptions nodeEnv).path = "/" ∧
      (refreshCookieOptions nodeEnv).maxAge = some (7 * 24 * 60 * 60 * 1000)) ∧
    ((refreshCookieOptions "production").httpOnly = true ∧
      (refreshCookieOptions "production").secure = true ∧
      (refreshCookieOptions "production").sameSite = "strict") ∧
    (∀ nodeEnv, nodeEnv ≠ "production" →
      (refreshCookieOptions nodeEnv).httpOnly = false ∧
      (refreshCookieOptions nodeEnv).secure = false ∧
      (refreshCookieOptions nodeEnv).sameSite = "lax") ∧
    (∀ cfg nodeEnv db hash newId now dto r db2,
      signUpEndpoint cfg nodeEnv db hash newId now dto = .ok (r, db2) →
      ∃ tok, r.2 = .set "refresh_token" tok (refreshCookieOptions nodeEnv)) ∧
    (∀ cfg nodeEnv compare db now email password r,
      signInEndpoint cfg nodeEnv compare db now email password = .ok r →
      ∃ tok, r.2 = .set "refresh_token" tok (refreshCookieOptions nodeEnv)) ∧
    (∀ cfg nodeEnv db now cookie r,
      refreshEndpoint cfg nodeEnv db now cookie = .ok r →
      ∃ tok, r.2 = .set "refresh_token" tok (refreshCookieOptions nodeEnv)) := by
  refine ⟨fun nodeEnv => ⟨rfl, rfl⟩, ⟨by decide, by decide, by decide⟩, ?_, ?_, ?_, ?_⟩
  · intro nodeEnv h
    refine ⟨?_, ?_, ?_⟩ <;> simp [refreshCookieOptions, h]
  · intro cfg nodeEnv db hash newId now dto r db2 h
    unfold signUpEndpoint at h
    cases hs : authSignUp cfg db hash newId now dto with
    | error e => rw [hs] at h; exact absurd h (by simp)
    | ok p =>
      rw [hs] at h
      simp only [Except.ok.injEq, Prod.mk.injEq] at h
      exact ⟨p.1.2, by rw [← h.1]⟩
  · intro cfg nodeEnv compare db now email password r h
    unfold signInEndpoint at h
    cases hs : localStrategyValidate compare db email password with
    | error e => rw [hs] at h; exact absurd h (by simp)
    | ok user =>
      rw [hs] at h
      simp only [Except.ok.injEq] at h
      exact ⟨(authSignIn cfg now user).2, by rw [← h]⟩
  · intro cfg nodeEnv db now cookie r h
    unfold refreshEndpoint at h
    cases hg : refreshGuard cfg db now cookie with
    | error e => rw [hg] at h; exact absurd h (by simp)
    | ok ru =>
      rw [hg] at h
      dsimp only at h
      cases ht : refreshTokens cfg db now ru.userId with
      | error e => rw [ht] at h; exact absurd h (by simp)
      | ok result =>
        rw [ht] at h
        simp only [Except.ok.injEq] at h
        exact ⟨result.2, by rw [← h]⟩

/-- C3 witness: the non-production attribute conjunct at the concrete
environment `"development"` and the sign-in conjunct applied to a
concrete successful sign-in. -/
theorem c3_witness :
    ((refreshCookieOptions "development").httpOnly = false ∧
      (refreshCookieOptions "development").secure = false ∧
      (refreshCookieOptions "development").sameSite = "lax") ∧
    ∃ tok, signInResult0.2 =
      .set "refresh_token" tok (refreshCookieOptions "development") :=
  ⟨c3.2.2.1 "development" (by decide),
   c3.2.2.2.2.1 cfgDistinct "development" compare0 db0 0 "ann@b.com" "Secur3pass"
     signInResult0 signInRun0⟩

/-! ## Claim C4 -/

/-- C4 (amended): logout fails Unauthorized with message "No refresh
token found" if and only if the `refresh_token` cookie is absent or its
value is the empty string (the handler tests JavaScript truthiness of
the cookie value); for every request whose cookie holds a non-empty
value — even if it is expired, tampered, or malformed — logout
unconditionally clears the cookie and returns success. -/
theorem c4 (nodeEnv : String) (cookie : Option String) :
    (logoutEndpoint nodeEnv cookie = .error (.unauthorized "No refresh token found") ↔
      cookie = none ∨ cookie = some "") ∧
    (∀ v, cookie = some v → v ≠ "" →
      logoutEndpoint nodeEnv cookie =
        .ok ("Logged out successfully", .clear "refresh_token" (clearCookieOptions nodeEnv))) := by
  constructor
  · cases cookie with
    | none => simp [logoutEndpoint, jsFalsy]
    | some v =>
      by_cases hv : v = ""
      · subst hv; simp [logoutEndpoint, jsFalsy]
      · simp [logoutEndpoint, jsFalsy, hv]
  · intro v hc hv
    subst hc
    simp [logoutEndpoint, jsFalsy, hv]

/-- C4 witness: the amended theorem applied to a concrete request whose
cookie holds a (malformed) non-empty value: logout clears the cookie and
succeeds; and to the cookieless request, which fails with the exact
message. -/
theorem c4_witness :
    logoutEndpoint "production" (some "not-a-jwt") =
      .ok ("Logged out successfully", .clear "refresh_token" (clearCookieOptions "production")) ∧
    logoutEndpoint "production" none = .error (.unauthorized "No refresh token found") :=
  ⟨(c4 "production" (some "not-a-jwt")).2 "not-a-jwt" rfl (by decide),
   (c4 "production" none).1.mpr (Or.inl rfl)⟩

/-- C4 counterexample: a request in which the `refresh_token` cookie is
present but carries the empty string is rejected with "No refresh token
found", although the claim says logout succeeds whenever the cookie is
present. -/
theorem c4_counterexample :
    logoutEndpoint "development" (some "") = .error (.unauthorized "No refresh token found") ∧
    (some "" ≠ (none : Option String)) :=
  ⟨rfl, by decide⟩

/-! ## Claim C5 -/

/-- Parsing a token under a secret different from the one it was signed
with fails, whatever the payload, lifetime and clock. -/
theorem parse_signToken_other_secret (s1 s2 : String) (hne : s1 ≠ s2)
    (d now now2 : Nat) (p : JwtPayload) (ig : Bool) :
    (parseToken (signToken s1 d now p) s2 ig now2).isOk = false := by
  simp only [parseToken, signToken]
  rw [if_neg]
  · rfl
  · intro hcontra
    exact hne (congrArg Prod.fst hcontra)

/-- C5 (amended): for every claims payload and every configuration
accepted at startup **whose two signing secrets differ**, a token signed
in the refresh keyspace fails parse in the access keyspace and a token
signed in the access keyspace fails parse in the refresh keyspace.
Startup validation itself does not force the secrets apart, so the
hypothesis is not discharged by acceptance alone (see the
counterexample). -/
theorem c5 (c : RawEnv) (v : EnvironmentVariables) (_hok : validate c = .ok v)
    (hne : v.JWT_SECRET ≠ v.JWT_REFRESH_SECRET) (p : JwtPayload)
    (d now now2 : Nat) :
    (parseToken (signToken (jwtRuntimeConfig v).refreshSecret d now p)
      (jwtStrategyOptions (jwtRuntimeConfig v)).secretOrKey
      (jwtStrategyOptions (jwtRuntimeConfig v)).ignoreExpiration now2).isOk = false ∧
    (parseToken (signToken (jwtRuntimeConfig v).secret d now p)
      (refreshTokenStrategyOptions (jwtRuntimeConfig v)).secretOrKey
      (refreshTokenStrategyOptions (jwtRuntimeConfig v)).ignoreExpiration now2).isOk = false :=
  ⟨parse_signToken_other_secret _ _ (fun heq => hne heq.symm) d now now2 p false,
   parse_signToken_other_secret _ _ hne d now now2 p false⟩

/-- C5 witness: the amended theorem applied to a concrete accepted
configuration with distinct secrets. -/
theorem c5_witness :
    (parseToken (signToken (jwtRuntimeConfig vDistinct).refreshSecret 604800 0 payload0)
      (jwtStrategyOptions (jwtRuntimeConfig vDistinct)).secretOrKey
      (jwtStrategyOptions (jwtRuntimeConfig vDistinct)).ignoreExpiration 10).isOk = false ∧
    (parseToken (signToken (jwtRuntimeConfig vDistinct).secret 3600 0 payload0)
      (refreshTokenStrategyOptions (jwtRuntimeConfig vDistinct)).secretOrKey
      (refreshTokenStrategyOptions (jwtRuntimeConfig vDistinct)).ignoreExpiration 10).isOk = false :=
  c5 rawDistinct vDistinct rfl (by decide) payload0 604800 0 10 |>.imp
    (fun h => h) (fun _ => (c5 rawDistinct vDistinct rfl (by decide) payload0 3600 0 10).2)

/-- C5 counterexample: `rawEqual` is accepted at startup with both
keyspaces bound to the same secret, and a token signed in the refresh
keyspace then parses successfully in the access keyspace — so the claim,
quantified over every accepted configuration, is false. -/
theorem c5_counterexample :
    validate rawEqual = .ok vEqual ∧
    (parseToken (signToken (jwtRuntimeConfig vEqual).refreshSecret 604800 0 payload0)
      (jwtStrategyOptions (jwtRuntimeConfig vEqual)).secretOrKey
      (jwtStrategyOptions (jwtRuntimeConfig vEqual)).ignoreExpiration 10).isOk = true :=
  ⟨rfl, rfl⟩

/-! ## Claim C6 -/

/-- C6: for every request presenting a token with a valid signature and
unexpired lifetime whose subject no longer resolves in the user store,
the access-required check fails Unauthorized, and likewise the
refresh-required check: deleting a user immediately invalidates their
still-unexpired tokens. -/
theorem c6 (cfg : JwtRuntimeConfig) (db : List UserDocument) (now : Nat)
    (t : SignedToken) (hnone : db.find? (fun u => u.id = t.claims.sub) = none) :
    (parseToken (.signed t) (jwtStrategyOptions cfg).secretOrKey
        (jwtStrategyOptions cfg).ignoreExpiration now = .ok t.claims →
      accessGuard cfg db now (some (.signed t)) = .error (.unauthorized "Unauthorized")) ∧
    (parseToken (.signed t) (refreshTokenStrategyOptions cfg).secretOrKey
        (refreshTokenStrategyOptions cfg).ignoreExpiration now = .ok t.claims →
      refreshGuard cfg db now (some (.signed t)) =
        .error (.unauthorized "Invalid refresh token")) := by
  constructor
  · intro hparse
    simp [accessGuard, hparse, jwtStrategyValidate, usersFindById, hnone]
  · intro hparse
    simp [refreshGuard, Token.isFalsy, hparse, refreshTokenStrategyValidate,
      usersFindById, hnone]

/-- C6 witness: the theorem applied to concrete well-signed, unexpired
access and refresh tokens over an empty user store. -/
theorem c6_witness :
    accessGuard cfgDistinct [] 10 (some (.signed stok0)) =
      .error (.unauthorized "Unauthorized") ∧
    refreshGuard cfgDistinct [] 10 (some (.signed rtok0)) =
      .error (.unauthorized "Invalid refresh token") :=
  ⟨(c6 cfgDistinct [] 10 stok0 rfl).1 rfl, (c6 cfgDistinct [] 10 rtok0 rfl).2 rfl⟩

/-! ## Claim C7 -/

/-- C7 (amended): a sign-in attempt with an unknown email and a sign-in
attempt with a registered email but a password that fails verification
both make `validateUser` return none, and both surface the identical
caller-visible failure — Unauthorized with message
"Invalid email or password" (with a capital I, as the strategy's unit
test pins it; not "invalid email or password") — so the two runs are
indistinguishable to the caller. -/
theorem c7 (compare : String → String → Bool) (db : List UserDocument)
    (cfg : JwtRuntimeConfig) (nodeEnv : String) (now : Nat)
    (e1 p1 e2 p2 : String) (u : UserDocument)
    (h1 : usersFindByEmail db e1 = none)
    (h2 : usersFindByEmail db e2 = some u)
    (h3 : compare p2 u.password = false) :
    validateUser compare db e1 p1 = none ∧
    validateUser compare db e2 p2 = none ∧
    signInEndpoint cfg nodeEnv compare db now e1 p1 =
      .error (.unauthorized "Invalid email or password") ∧
    signInEndpoint cfg nodeEnv compare db now e2 p2 =
      signInEndpoint cfg nodeEnv compare db now e1 p1 := by
  have hv1 : validateUser compare db e1 p1 = none := by
    simp [validateUser, h1]
  have hv2 : validateUser compare db e2 p2 = none := by
    simp [validateUser, h2, validatePassword, h3]
  refine ⟨hv1, hv2, ?_, ?_⟩
  · simp [signInEndpoint, localStrategyValidate, hv1]
  · simp [signInEndpoint, localStrategyValidate, hv1, hv2]

/-- C7 witness: the theorem applied to a concrete store — an unregistered
email on one side and `user0`'s email with a wrong password on the
other. -/
theorem c7_witness :
    validateUser compare0 db0 "nobody@x.com" "whatever" = none ∧
    validateUser compare0 db0 "ann@b.com" "wrongpass" = none ∧
    signInEndpoint cfgDistinct "development" compare0 db0 0 "nobody@x.com" "whatever" =
      .error (.unauthorized "Invalid email or password") ∧
    signInEndpoint cfgDistinct "development" compare0 db0 0 "ann@b.com" "wrongpass" =
      signInEndpoint cfgDistinct "development" compare0 db0 0 "nobody@x.com" "whatever" :=
  c7 compare0 db0 cfgDistinct "development" 0 "nobody@x.com" "whatever"
    "ann@b.com" "wrongpass" user0 rfl rfl rfl

/-- C7 counterexample: on a concrete failing sign-in the caller-visible
message is "Invalid email or password", which differs from the claimed
message "invalid email or password" — so the claim's message text is
false as stated, while the failure shape is identical in both runs. -/
theorem c7_counterexample :
    signInEndpoint cfgDistinct "development" compare0 db0 0 "nobody@x.com"
      "whatever" = .error (.unauthorized "Invalid email or password") ∧
    signInEndpoint cfgDistinct "development" compare0 db0 0 "ann@b.com"
      "wrongpass" = .error (.unauthorized "Invalid email or password") ∧
    "Invalid email or password" ≠ "invalid email or password" :=
  ⟨rfl, rfl, by decide⟩

/-! ## Claim C8 -/

/-- C8: a token whose expiry lies in the past fails parse in both the
access and the refresh keyspace even when the signature is valid, and
both strategies are constructed with `ignoreExpiration := false` — no
parse call site of the subsystem disables expiration checking. -/
theorem c8 (cfg : JwtRuntimeConfig) (db : List UserDocument) (now : Nat)
    (t : SignedToken) (hexp : t.claims.exp < now) :
    (jwtStrategyOptions cfg).ignoreExpiration = false ∧
    (refreshTokenStrategyOptions cfg).ignoreExpiration = false ∧
    (parseToken (.signed t) (jwtStrategyOptions cfg).secretOrKey
      (jwtStrategyOptions cfg).ignoreExpiration now).isOk = false ∧
    (parseToken (.signed t) (refreshTokenStrategyOptions cfg).secretOrKey
      (refreshTokenStrategyOptions cfg).ignoreExpiration now).isOk = false ∧
    (accessGuard cfg db now (some (.signed t))).isOk = false ∧
    (refreshGuard cfg db now (some (.signed t))).isOk = false := by
  have hparse : ∀ s : String,
      (parseToken (.signed t) s false now).isOk = false := by
    intro s
    simp only [parseToken]
    by_cases hsig : t.sig = (s, t.claims)
    · rw [if_pos hsig, if_pos]
      · rfl
      · simp
        omega
    · rw [if_neg hsig]
      rfl
  refine ⟨rfl, rfl, hparse _, hparse _, ?_, ?_⟩
  · unfold accessGuard
    cases hp : parseToken (.signed t) (jwtStrategyOptions cfg).secretOrKey
        (jwtStrategyOptions cfg).ignoreExpiration now with
    | error e => simp only [hp]; rfl
    | ok claims =>
      exfalso
      have h := hparse (jwtStrategyOptions cfg).secretOrKey
      have hp2 : parseToken (.signed t) (jwtStrategyOptions cfg).secretOrKey false now =
          .ok claims := hp
      rw [hp2] at h
      simp [Except.isOk, Except.toBool] at h
  · unfold refreshGuard
    cases hp : parseToken (.signed t) (refreshTokenStrategyOptions cfg).secretOrKey
        (refreshTokenStrategyOptions cfg).ignoreExpiration now with
    | error e => simp only [Token.isFalsy, hp]; rfl
    | ok claims =>
      exfalso
      have h := hparse (refreshTokenStrategyOptions cfg).secretOrKey
      have hp2 : parseToken (.signed t) (refreshTokenStrategyOptions cfg).secretOrKey
          false now = .ok claims := hp
      rw [hp2] at h
      simp [Except.isOk, Except.toBool] at h

/-- C8 witness: the theorem applied to a concrete validly signed token
whose expiry (3600) lies before the clock (1000000). -/
theorem c8_witness :
    (parseToken (.signed stok0) (jwtStrategyOptions cfgDistinct).secretOrKey
      (jwtStrategyOptions cfgDistinct).ignoreExpiration 1000000).isOk = false ∧
    (accessGuard cfgDistinct db0 1000000 (some (.signed stok0))).isOk = false :=
  ⟨(c8 cfgDistinct db0 1000000 stok0 (by decide)).2.2.1,
   (c8 cfgDistinct db0 1000000 stok0 (by decide)).2.2.2.2.1⟩

/-! ## Inversion lemmas for the endpoint pipelines -/

/-- Inversion of a successful `findById`: the returned document is in the
store and carries the requested id. -/
theorem findById_ok {db : List UserDocument} {i : String} {u : UserDocument}
    (h : usersFindById db i = .ok u) : u ∈ db ∧ u.id = i := by
  unfold usersFindById at h
  cases hf : db.find? (fun w => w.id = i) with
  | none => rw [hf] at h; exact absurd h (by simp)
  | some w =>
    rw [hf] at h
    simp only [Except.ok.injEq] at h
    subst h
    have hp := List.find?_some hf
    exact ⟨List.mem_of_find?_eq_some hf, by simpa using hp⟩

/-- Inversion of a successful `validateUser`: the returned user is in the
store. -/
theorem validateUser_some_mem {compare : String → String → Bool}
    {db : List UserDocument} {e p : String} {u : UserDocument}
    (h : validateUser compare db e p = some u) : u ∈ db := by
  unfold validateUser at h
  cases hf : usersFindByEmail db e with
  | none => rw [hf] at h; simp at h
  | some w =>
    rw [hf] at h
    cases hc : validatePassword compare w p with
    | false => simp [hc] at h
    | true =>
      simp [hc] at h
      subst h
      exact List.mem_of_find?_eq_some hf

/-- Inversion of a successful local-strategy validation. -/
theorem localStrategyValidate_ok {compare : String → String → Bool}
    {db : List UserDocument} {e p : String} {u : UserDocument}
    (h : localStrategyValidate compare db e p = .ok u) :
    validateUser compare db e p = some u := by
  unfold localStrategyValidate at h
  cases hv : validateUser compare db e p with
  | none => rw [hv] at h; exact absurd h (by simp)
  | some w =>
    rw [hv] at h
    simp only [Except.ok.injEq] at h
    rw [h]

/-- Inversion of a successful `AuthService.signUp`. -/
theorem authSignUp_ok {cfg : JwtRuntimeConfig} {db : List UserDocument}
    {hash : String → String} {newId : String} {now : Nat} {dto : SignUpDto}
    {p : (AuthResponseDto × Token) × List UserDocument}
    (h : authSignUp cfg db hash newId now dto = .ok p) :
    p = (generateAuthResponse cfg now (usersCreate db hash newId now dto).1,
         (usersCreate db hash newId now dto).2) := by
  unfold authSignUp at h
  cases hf : usersFindByEmail db dto.email with
  | some u => rw [hf] at h; exact absurd h (by simp)
  | none =>
    rw [hf] at h
    simp only [Except.ok.injEq] at h
    exact h.symm

/-- Inversion of a successful `AuthService.refreshTokens`. -/
theorem refreshTokens_ok {cfg : JwtRuntimeConfig} {db : List UserDocument}
    {now : Nat} {uid : String} {result : AuthResponseDto × Token}
    (h : refreshTokens cfg db now uid = .ok result) :
    ∃ user, usersFindById db uid = .ok user ∧
      result = generateAuthResponse cfg now user := by
  unfold refreshTokens at h
  cases hf : usersFindById db uid with
  | error e => rw [hf] at h; exact absurd h (by simp)
  | ok user =>
    rw [hf] at h
    simp only [Except.ok.injEq] at h
    exact ⟨user, rfl, h.symm⟩

/-- Inversion of a successful sign-up endpoint run. -/
theorem signUpEndpoint_ok {cfg : JwtRuntimeConfig} {nodeEnv : String}
    {db : List UserDocument} {hash : String → String} {newId : String}
    {now : Nat} {dto : SignUpDto} {r : AuthResponseDto × CookieEffect}
    {db2 : List UserDocument}
    (h : signUpEndpoint cfg nodeEnv db hash newId now dto = .ok (r, db2)) :
    r.1 = (generateAuthResponse cfg now (usersCreate db hash newId now dto).1).1 ∧
    r.2 = .set "refresh_token"
      (generateAuthResponse cfg now (usersCreate db hash newId now dto).1).2
      (refreshCookieOptions nodeEnv) ∧
    db2 = (usersCreate db hash newId now dto).2 := by
  unfold signUpEndpoint at h
  cases hs : authSignUp cfg db hash newId now dto with
  | error e => rw [hs] at h; exact absurd h (by simp)
  | ok p =>
    rw [hs] at h
    simp only [Except.ok.injEq, Prod.mk.injEq] at h
    have hp := authSignUp_ok hs
    subst hp
    exact ⟨by rw [← h.1], by rw [← h.1], by rw [← h.2]⟩

/-- Inversion of a successful sign-in endpoint run. -/
theorem signInEndpoint_ok {cfg : JwtRuntimeConfig} {nodeEnv : String}
    {compare : String → String → Bool} {db : List UserDocument} {now : Nat}
    {email password : String} {r : AuthResponseDto × CookieEffect}
    (h : signInEndpoint cfg nodeEnv compare db now email password = .ok r) :
    ∃ user, validateUser compare db email password = some user ∧
      r.1 = (generateAuthResponse cfg now user).1 ∧
      r.2 = .set "refresh_token" (generateAuthResponse cfg now user).2
        (refreshCookieOptions nodeEnv) := by
  unfold signInEndpoint at h
  cases hs : localStrategyValidate compare db email password with
  | error e => rw [hs] at h; exact absurd h (by simp)
  | ok user =>
    rw [hs] at h
    simp only [Except.ok.injEq] at h
    exact ⟨user, localStrategyValidate_ok hs, by rw [← h]; rfl, by rw [← h]; rfl⟩

/-- Inversion of a successful refresh endpoint run. -/
theorem refreshEndpoint_ok {cfg : JwtRuntimeConfig} {nodeEnv : String}
    {db : List UserDocument} {now : Nat} {cookie : Option Token}
    {r : AuthResponseDto × CookieEffect}
    (h : refreshEndpoint cfg nodeEnv db now cookie = .ok r) :
    ∃ user, user ∈ db ∧
      r.1 = (generateAuthResponse cfg now user).1 ∧
      r.2 = .set "refresh_token" (generateAuthResponse cfg now user).2
        (refreshCookieOptions nodeEnv) := by
  unfold refreshEndpoint at h
  cases hg : refreshGuard cfg db now cookie with
  | error e => rw [hg] at h; exact absurd h (by simp)
  | ok ru =>
    rw [hg] at h
    dsimp only at h
    cases ht : refreshTokens cfg db now ru.userId with
    | error e => rw [ht] at h; exact absurd h (by simp)
    | ok result =>
      rw [ht] at h
      simp only [Except.ok.injEq] at h
      obtain ⟨user, hfind, hres⟩ := refreshTokens_ok ht
      subst hres
      exact ⟨user, (findById_ok hfind).1, by rw [← h], by rw [← h]⟩

/-- Inversion of a successful `UsersService.update`. -/
theorem usersUpdate_ok {db : List UserDocument} {i : String}
    {dto : UpdateUserDto} {now : Nat} {p : UserDocument × List UserDocument}
    (h : usersUpdate db i dto now = .ok p) :
    ∃ u, u ∈ db ∧ u.id = i ∧
      p.1 = { u with name := dto.name.getD u.name, updatedAt := now } ∧
      p.2 = db.map (fun w =>
        if w.id = i then { u with name := dto.name.getD u.name, updatedAt := now }
        else w) := by
  unfold usersUpdate at h
  cases hf : db.find? (fun w => w.id = i) with
  | none => rw [hf] at h; exact absurd h (by simp)
  | some u =>
    rw [hf] at h
    simp only [Except.ok.injEq] at h
    have hp := List.find?_some hf
    refine ⟨u, List.mem_of_find?_eq_some hf, by simpa using hp,
      by rw [← h], by rw [← h]⟩

/-! ## Claim C9 -/

/-- C9: every operation that returns a user record outward (sign-up,
sign-in, refresh, profile read, profile update) returns it through
`toUserEntity`, whose serialization consists of exactly the fields
`_id`, `email`, `name`, `createdAt`, `updatedAt`; the stored password
hash is never among the serialized fields. -/
theorem c9 :
    (∀ cfg nodeEnv db hash newId now dto r db2,
      signUpEndpoint cfg nodeEnv db hash newId now dto = .ok (r, db2) →
      ∃ u, u ∈ db2 ∧ r.1.user = toUserEntity u) ∧
    (∀ cfg nodeEnv compare db now email password r,
      signInEndpoint cfg nodeEnv compare db now email password = .ok r →
      ∃ u, u ∈ db ∧ r.1.user = toUserEntity u) ∧
    (∀ cfg nodeEnv db now cookie r,
      refreshEndpoint cfg nodeEnv db now cookie = .ok r →
      ∃ u, u ∈ db ∧ r.1.user = toUserEntity u) ∧
    (∀ cfg db now bearer e,
      getProfileEndpoint cfg db now bearer = .ok e →
      ∃ u, u ∈ db ∧ e = toUserEntity u) ∧
    (∀ cfg db now bearer dto r,
      updateProfileEndpoint cfg db now bearer dto = .ok r →
      ∃ u, u ∈ r.2 ∧ r.1 = toUserEntity u) ∧
    (∀ e, (serializeUserEntity e).map Prod.fst =
        ["_id", "email", "name", "createdAt", "updatedAt"] ∧
      "password" ∉ (serializeUserEntity e).map Prod.fst) := by
  refine ⟨?_, ?_, ?_, ?_, ?_, fun e => ⟨rfl, by
    rw [show (serializeUserEntity e).map Prod.fst =
      ["_id", "email", "name", "createdAt", "updatedAt"] from rfl]
    decide⟩⟩
  · intro cfg nodeEnv db hash newId now dto r db2 h
    obtain ⟨h1, _h2, h3⟩ := signUpEndpoint_ok h
    refine ⟨(usersCreate db hash newId now dto).1, ?_, ?_⟩
    · rw [h3]; simp [usersCreate]
    · rw [h1]; rfl
  · intro cfg nodeEnv compare db now email password r h
    obtain ⟨user, hv, h1, _h2⟩ := signInEndpoint_ok h
    exact ⟨user, validateUser_some_mem hv, by rw [h1]; rfl⟩
  · intro cfg nodeEnv db now cookie r h
    obtain ⟨user, hmem, h1, _h2⟩ := refreshEndpoint_ok h
    exact ⟨user, hmem, by rw [h1]; rfl⟩
  · intro cfg db now bearer e h
    unfold getProfileEndpoint at h
    cases hg : accessGuard cfg db now bearer with
    | error err => rw [hg] at h; exact absurd h (by simp)
    | ok au =>
      rw [hg] at h
      dsimp only at h
      unfold usersGetProfile at h
      cases hf : usersFindById db au.userId with
      | error err => rw [hf] at h; simp [Except.map] at h
      | ok u =>
        rw [hf] at h
        simp only [Except.map, Except.ok.injEq] at h
        exact ⟨u, (findById_ok hf).1, h.symm⟩
  · intro cfg db now bearer dto r h
    unfold updateProfileEndpoint at h
    cases hg : accessGuard cfg db now bearer with
    | error err => rw [hg] at h; exact absurd h (by simp)
    | ok au =>
      rw [hg] at h
      dsimp only at h
      unfold usersUpdateProfile at h
      cases hu : usersUpdate db au.userId dto now with
      | error err => rw [hu] at h; simp [Except.map] at h
      | ok p =>
        rw [hu] at h
        simp only [Except.map, Except.ok.injEq] at h
        obtain ⟨u, hmem, hid, hp1, hp2⟩ := usersUpdate_ok hu
        refine ⟨p.1, ?_, by rw [← h]⟩
        rw [← h]
        show p.1 ∈ p.2
        rw [hp2]
        refine List.mem_map.mpr ⟨u, hmem, ?_⟩
        show (if u.id = au.userId then
          ({ u with name := dto.name.getD u.name, updatedAt := now } : UserDocument)
          else u) = p.1
        rw [if_pos hid, hp1]

/-- C9 witness: the theorem's profile-read conjunct applied to a concrete
authenticated request, and the field-list conjunct at the resulting
entity. -/
theorem c9_witness :
    (∃ u, u ∈ db0 ∧ toUserEntity user0 = toUserEntity u) ∧
    (serializeUserEntity (toUserEntity user0)).map Prod.fst =
      ["_id", "email", "name", "createdAt", "updatedAt"] :=
  ⟨c9.2.2.2.1 cfgDistinct db0 5 (some (.signed stok0)) (toUserEntity user0) getProfileRun0,
   (c9.2.2.2.2.2 (toUserEntity user0)).1⟩

/-! ## Claim C10 -/

/-- C10: every successful authentication (sign-up, sign-in, refresh)
issues exactly one access token and exactly one refresh token (the
refresh token leaving only through the cookie write), both signed over
the payload `{sub: identity.id, email: identity.email}` taken from the
same user document at the same instant; no success carries one token
without the other. -/
theorem c10 :
    (∀ cfg nodeEnv db hash newId now dto r db2,
      signUpEndpoint cfg nodeEnv db hash newId now dto = .ok (r, db2) →
      ∃ u, r.1.user = toUserEntity u ∧
        r.1.access_token = signToken cfg.secret (durationSeconds cfg.expiresIn) now
          { sub := u.id, email := u.email } ∧
        r.2 = .set "refresh_token"
          (signToken cfg.refreshSecret (durationSeconds cfg.refreshExpiresIn) now
            { sub := u.id, email := u.email })
          (refreshCookieOptions nodeEnv)) ∧
    (∀ cfg nodeEnv compare db now email password r,
      signInEndpoint cfg nodeEnv compare db now email password = .ok r →
      ∃ u, r.1.user = toUserEntity u ∧
        r.1.access_token = signToken cfg.secret (durationSeconds cfg.expiresIn) now
          { sub := u.id, email := u.email } ∧
        r.2 = .set "refresh_token"
          (signToken cfg.refreshSecret (durationSeconds cfg.refreshExpiresIn) now
            { sub := u.id, email := u.email })
          (refreshCookieOptions nodeEnv)) ∧
    (∀ cfg nodeEnv db now cookie r,
      refreshEndpoint cfg nodeEnv db now cookie = .ok r →
      ∃ u, r.1.user = toUserEntity u ∧
        r.1.access_token = signToken cfg.secret (durationSeconds cfg.expiresIn) now
          { sub := u.id, email := u.email } ∧
        r.2 = .set "refresh_token"
          (signToken cfg.refreshSecret (durationSeconds cfg.refreshExpiresIn) now
            { sub := u.id, email := u.email })
          (refreshCookieOptions nodeEnv)) := by
  refine ⟨?_, ?_, ?_⟩
  · intro cfg nodeEnv db hash newId now dto r db2 h
    obtain ⟨h1, h2, _h3⟩ := signUpEndpoint_ok h
    exact ⟨(usersCreate db hash newId now dto).1, by rw [h1]; rfl,
      by rw [h1]; rfl, by rw [h2]; rfl⟩
  · intro cfg nodeEnv compare db now email password r h
    obtain ⟨user, _hv, h1, h2⟩ := signInEndpoint_ok h
    exact ⟨user, by rw [h1]; rfl, by rw [h1]; rfl, by rw [h2]; rfl⟩
  · intro cfg nodeEnv db now cookie r h
    obtain ⟨user, _hmem, h1, h2⟩ := refreshEndpoint_ok h
    exact ⟨user, by rw [h1]; rfl, by rw [h1]; rfl, by rw [h2]; rfl⟩

/-- C10 witness: the sign-in conjunct applied to a concrete successful
sign-in. -/
theorem c10_witness :
    ∃ u, signInResult0.1.user = toUserEntity u ∧
      signInResult0.1.access_token = signToken cfgDistinct.secret
        (durationSeconds cfgDistinct.expiresIn) 0 { sub := u.id, email := u.email } ∧
      signInResult0.2 = .set "refresh_token"
        (signToken cfgDistinct.refreshSecret
          (durationSeconds cfgDistinct.refreshExpiresIn) 0
          { sub := u.id, email := u.email })
        (refreshCookieOptions "development") :=
  c10.2.1 cfgDistinct "development" compare0 db0 0 "ann@b.com" "Secur3pass"
    signInResult0 signInRun0

end AuthSpec
